import Mathlib

/-
Verification of the EpidemicModel simulation (src/epimodel.py) against its
natural-language specification.

The Python class `EpidemicModel` is shallowly embedded here:
- numpy state arrays of length N become functions `Fin N → HState` / `Fin N → Bool`;
- the stream of pseudo-random draws consumed by `sim` (np.random.rand,
  np.random.choice, np.random.binomial, np.random.shuffle) is abstracted as an
  `Oracle` record supplying one value per (day, agent) decision point;
- float probabilities become rationals `ℚ`;
- Python exceptions raised by the `apply_*` configuration methods become
  `Except String`; Python's truthiness test `if x:` on an optional integer
  argument is modelled by `optTruthy` (false exactly for `None` and `0`).
-/

namespace Epi

/-- Health states of an agent (SUSCEPTIBLE=0, EXPOSED=1, INFECTIOUS=2,
RECOVERED=3 in the source). -/
inductive HState where
  | SUSCEPTIBLE
  | EXPOSED
  | INFECTIOUS
  | RECOVERED
  deriving DecidableEq, Repr

open HState

/-- Per-day simulation record appended to `self.history` and shaped into a row
of `history_df` (`Day, S, E, I, R, Q, V, infected`). -/
structure HistoryRecord where
  day : Nat
  S : Nat
  E : Nat
  I : Nat
  R : Nat
  Q : Nat
  V : Nat
  infected : Nat
  deriving DecidableEq, Repr, Inhabited

/-- The running `self.totals` dictionary (lines 234-246 of the source). -/
structure Totals where
  S : Nat
  E : Nat
  I : Nat
  R : Nat
  V : Nat
  Q : Nat
  max_infected : Nat
  max_exposed : Nat
  max_quarantined : Nat
  max_vaccinated : Nat
  infected : Nat
  deriving DecidableEq, Repr, Inhabited

/-- The model-configuration fields of the `EpidemicModel` class: constructor
parameters plus the intervention fields initialised in `__init__` and set by
the `apply_*` methods. -/
structure EpidemicModel where
  N : Nat
  init_infected : Nat
  init_exposed : Nat
  days : Nat
  beta : ℚ
  sigma : ℚ
  gamma : ℚ
  act_rate : Nat
  quarantine_enabled : Bool
  quarantine_enabled_day : Bool
  quarantine_enabled_threshold : Bool
  quarantine_prob : ℚ
  quarantine_start : Option Nat
  quarantine_threshold : Option Nat
  vaccination_enabled : Bool
  vaccine_start : Option Nat
  vaccine_rate : ℚ
  distancing_enabled : Bool
  distancing_enabled_day : Bool
  distancing_enabled_threshold : Bool
  distancing_start : Option Nat
  distancing_threshold : Option Nat
  reduced_contacts : Option Nat
  masking_enabled : Bool
  mask_enabled_day : Bool
  mask_enabled_threshold : Bool
  mask_start : Option Nat
  mask_threshold : Option Nat
  mask_effectiveness : ℚ
  deriving DecidableEq, Repr

/-- `EpidemicModel.__init__`: record the eight constructor parameters and zero
out every intervention field (lines 39-74). -/
def EpidemicModel.init (N init_infected init_exposed days : Nat)
    (beta sigma gamma : ℚ) (act_rate : Nat) : EpidemicModel :=
  { N := N
    init_infected := init_infected
    init_exposed := init_exposed
    days := days
    beta := beta
    sigma := sigma
    gamma := gamma
    act_rate := act_rate
    quarantine_enabled := false
    quarantine_enabled_day := false
    quarantine_enabled_threshold := false
    quarantine_prob := 0
    quarantine_start := none
    quarantine_threshold := none
    vaccination_enabled := false
    vaccine_start := none
    vaccine_rate := 0
    distancing_enabled := false
    distancing_enabled_day := false
    distancing_enabled_threshold := false
    distancing_start := none
    distancing_threshold := none
    reduced_contacts := none
    masking_enabled := false
    mask_enabled_day := false
    mask_enabled_threshold := false
    mask_start := none
    mask_threshold := none
    mask_effectiveness := 0 }

/-- Python truthiness of an optional integer argument: `if x:` is false for
`None` and for `0`, true for any other integer. -/
def optTruthy : Option Nat → Bool
  | none => false
  | some n => decide (n ≠ 0)

/-- `EpidemicModel.apply_quarantine` (lines 89-118). -/
def apply_quarantine (m : EpidemicModel) (q_prob : ℚ)
    (quarantine_day quarantine_threshold : Option Nat) : Except String EpidemicModel :=
  if ¬(0 ≤ q_prob ∧ q_prob ≤ 1) then
    Except.error "Quarantine probability must be between 0 and 1."
  else if optTruthy quarantine_day && optTruthy quarantine_threshold then
    Except.error "Both trigger_day and trigger_infectious cannot be set at the same time."
  else if optTruthy quarantine_day then
    Except.ok { m with quarantine_start := quarantine_day, quarantine_prob := q_prob,
                       quarantine_enabled_day := true, quarantine_enabled := true }
  else if optTruthy quarantine_threshold then
    Except.ok { m with quarantine_threshold := quarantine_threshold, quarantine_prob := q_prob,
                       quarantine_enabled_threshold := true, quarantine_enabled := true }
  else
    Except.ok { m with quarantine_enabled := true }

/-- `EpidemicModel.apply_vaccination` (lines 120-149). -/
def apply_vaccination (m : EpidemicModel) (v_rate : ℚ)
    (vaccination_day begin_vaccine_development : Option Nat) : Except String EpidemicModel :=
  if ¬(0 ≤ v_rate ∧ v_rate ≤ 1) then
    Except.error "Vaccination rate must be between 0 and 1."
  else if optTruthy vaccination_day then
    if optTruthy begin_vaccine_development then
      Except.ok { m with
        vaccine_start := some (vaccination_day.getD 0 + begin_vaccine_development.getD 0),
        vaccine_rate := v_rate, vaccination_enabled := true }
    else
      Except.ok { m with vaccine_start := vaccination_day, vaccine_rate := v_rate,
                         vaccination_enabled := true }
  else if optTruthy begin_vaccine_development && !optTruthy vaccination_day then
    Except.error "Vaccination day must be set if vaccine development time is specified."
  else
    Except.ok m

/-- `EpidemicModel.apply_masking` (lines 151-180). -/
def apply_masking (m : EpidemicModel) (mask_effectiveness : ℚ)
    (mask_day mask_threshold : Option Nat) : Except String EpidemicModel :=
  if ¬(0 ≤ mask_effectiveness ∧ mask_effectiveness ≤ 1) then
    Except.error "Mask effectiveness must be between 0 and 1."
  else if optTruthy mask_day && optTruthy mask_threshold then
    Except.error "Cannot set both mask_day and mask_threshold at the same time."
  else if optTruthy mask_day then
    Except.ok { m with mask_start := mask_day, mask_effectiveness := mask_effectiveness,
                       mask_enabled_day := true, masking_enabled := true }
  else if optTruthy mask_threshold then
    Except.ok { m with mask_threshold := mask_threshold, mask_effectiveness := mask_effectiveness,
                       mask_enabled_threshold := true, masking_enabled := true }
  else
    Except.ok { m with masking_enabled := true }

/-- `EpidemicModel.apply_distancing` (lines 182-215). -/
def apply_distancing (m : EpidemicModel) (reduced_contacts : Nat)
    (distancing_day distancing_threshold : Option Nat) : Except String EpidemicModel :=
  if ¬(0 < reduced_contacts ∧ reduced_contacts < m.act_rate) then
    Except.error "Reduced contacts must be between 0 and the original activity rate."
  else if optTruthy distancing_day && optTruthy distancing_threshold then
    Except.error "Cannot set both distancing_day and distancing_threshold at the same time."
  else if optTruthy distancing_day then
    Except.ok { m with distancing_start := distancing_day, reduced_contacts := some reduced_contacts,
                       distancing_enabled_day := true, distancing_enabled := true }
  else if optTruthy distancing_threshold then
    Except.ok { m with distancing_threshold := distancing_threshold,
                       reduced_contacts := some reduced_contacts,
                       distancing_enabled_threshold := true, distancing_enabled := true }
  else
    Except.ok { m with distancing_enabled := true }

/-- The mutable population arrays of the simulation: `self.states`,
`self.vaccinated`, `self.quarantined`, each of length `N`. -/
structure Pop (N : Nat) where
  states : Fin N → HState
  vaccinated : Fin N → Bool
  quarantined : Fin N → Bool

/-- The randomness consumed by one call to `sim`, one field per kind of draw:
`shufflePerm` for `np.random.shuffle` on the initial state array, `contacts`
for each susceptible agent's `np.random.choice(N, c, replace=False)` (the
simulation takes the first `c` entries of the supplied list), `infDraw`,
`sigDraw`, `recDraw`, `qDraw` for the `np.random.rand()` comparisons, `binom`
for `np.random.binomial(n, rate)` and `vacChoice` for the without-replacement
choice of newly vaccinated agents. -/
structure Oracle (N : Nat) where
  shufflePerm : Equiv.Perm (Fin N)
  contacts : Nat → Fin N → List (Fin N)
  infDraw : Nat → Fin N → ℚ
  sigDraw : Nat → Fin N → ℚ
  recDraw : Nat → Fin N → ℚ
  qDraw : Nat → Fin N → ℚ
  binom : Nat → Nat → ℚ → Nat
  vacChoice : Nat → List (Fin N) → Nat → List (Fin N)

/-- `np.sum(states == x)`: number of agents in health state `x`. -/
def countState {N : Nat} (s : Fin N → HState) (x : HState) : Nat :=
  (List.finRange N).countP (fun i => decide (s i = x))

/-- Number of agents whose overlay flag (`quarantined` / `vaccinated`) is set. -/
def countFlag {N : Nat} (v : Fin N → Bool) : Nat :=
  (List.finRange N).countP (fun i => v i)

/-- `np.sum(self.states == INFECTIOUS)`. -/
def countInfectious {N : Nat} (s : Fin N → HState) : Nat :=
  countState s INFECTIOUS

/-- Distancing trigger test of lines 264-270: the condition is re-evaluated
every day against the current (pre-update) states. -/
def distancingActive (m : EpidemicModel) (day : Nat) (s : Fin m.N → HState) : Bool :=
  m.distancing_enabled &&
    ((m.distancing_enabled_day && decide (m.distancing_start.getD 0 ≤ day)) ||
     (m.distancing_enabled_threshold &&
        decide (m.distancing_threshold.getD 0 ≤ countInfectious s)))

/-- `current_contacts` for the day (lines 264-274). -/
def currentContacts (m : EpidemicModel) (day : Nat) (s : Fin m.N → HState) : Nat :=
  if distancingActive m day s then m.reduced_contacts.getD 0 else m.act_rate

/-- Masking trigger test of lines 277-283. -/
def maskingActive (m : EpidemicModel) (day : Nat) (s : Fin m.N → HState) : Bool :=
  m.masking_enabled &&
    ((m.mask_enabled_day && decide (m.mask_start.getD 0 ≤ day)) ||
     (m.mask_enabled_threshold &&
        decide (m.mask_threshold.getD 0 ≤ countInfectious s)))

/-- `current_beta` for the day (lines 277-288). -/
def currentBeta (m : EpidemicModel) (day : Nat) (s : Fin m.N → HState) : ℚ :=
  if maskingActive m day s then m.beta * (1 - m.mask_effectiveness) else m.beta

/-- Quarantine trigger test of lines 339-345, evaluated inside the agent loop
against the pre-update snapshot `self.states`. -/
def quarantineTriggerMet (m : EpidemicModel) (day : Nat) (s : Fin m.N → HState) : Bool :=
  (m.quarantine_enabled_day && decide (m.quarantine_start.getD 0 ≤ day)) ||
  (m.quarantine_enabled_threshold &&
     decide (m.quarantine_threshold.getD 0 ≤ countInfectious s))

/-- The transmission test of lines 315-319: any infectious sampled contact
triggers a uniform draw against `1 - (1 - beta) ** (#infectious contacts -
#quarantined contacts)`. -/
def susceptibleBecomesExposed {N : Nat} (p : ℚ) (s : Fin N → HState) (q : Fin N → Bool)
    (cs : List (Fin N)) (draw : ℚ) : Bool :=
  let infCount := cs.countP (fun j => decide (s j = INFECTIOUS))
  if 0 < infCount then
    let qCount := cs.countP (fun j => q j)
    decide (draw < 1 - (1 - p) ^ ((infCount : ℤ) - (qCount : ℤ)))
  else false

/-- Vaccination module of lines 291-306: operates on the vaccinated overlay
before the per-agent loop; returns the new overlay and the number of newly
vaccinated agents added to `totals["V"]`. -/
def vaccinationStep (m : EpidemicModel) (o : Oracle m.N) (day : Nat)
    (vacc : Fin m.N → Bool) : (Fin m.N → Bool) × Nat :=
  if m.vaccination_enabled && decide (m.vaccine_start.getD 0 ≤ day) then
    let nonvacc := (List.finRange m.N).filter (fun i => !vacc i)
    if 0 < nonvacc.length then
      let num := o.binom day nonvacc.length m.vaccine_rate
      if 0 < num then
        let chosen := o.vacChoice day nonvacc num
        (fun i => if i ∈ chosen then true else vacc i, num)
      else (vacc, 0)
    else (vacc, 0)
  else (vacc, 0)

/-- One iteration of the per-agent loop (lines 309-348) for agent `i`:
reads the pre-update snapshot `snapS`, `snapQ`, writes the new arrays and the
running totals carried in `acc`. -/
def agentStep (m : EpidemicModel) (o : Oracle m.N) (day : Nat)
    (snapS : Fin m.N → HState) (snapQ : Fin m.N → Bool) (c : Nat) (b : ℚ)
    (acc : (Fin m.N → HState) × (Fin m.N → Bool) × Totals) (i : Fin m.N) :
    (Fin m.N → HState) × (Fin m.N → Bool) × Totals :=
  if snapS i = SUSCEPTIBLE then
    if susceptibleBecomesExposed b snapS snapQ ((o.contacts day i).take c) (o.infDraw day i) then
      (Function.update acc.1 i EXPOSED, acc.2.1,
        { acc.2.2 with E := acc.2.2.E + 1, infected := acc.2.2.infected + 1 })
    else acc
  else if snapS i = EXPOSED then
    if o.sigDraw day i < m.sigma then
      (Function.update acc.1 i INFECTIOUS, acc.2.1, { acc.2.2 with I := acc.2.2.I + 1 })
    else acc
  else if snapS i = INFECTIOUS then
    if o.recDraw day i < m.gamma then
      (Function.update acc.1 i RECOVERED, Function.update acc.2.1 i false,
        { acc.2.2 with R := acc.2.2.R + 1 })
    else if m.quarantine_enabled && quarantineTriggerMet m day snapS &&
            decide (o.qDraw day i < m.quarantine_prob) then
      (acc.1, Function.update acc.2.1 i true, { acc.2.2 with Q := acc.2.2.Q + 1 })
    else acc
  else acc

/-- One simulated day (loop body of lines 258-353): effective contact count and
transmission probability from the interventions, vaccination module, then the
per-agent loop over the snapshot. -/
def dayStep (m : EpidemicModel) (o : Oracle m.N) (day : Nat) (p : Pop m.N) (t : Totals) :
    Pop m.N × Totals :=
  let c := currentContacts m day p.states
  let b := currentBeta m day p.states
  let vres := vaccinationStep m o day p.vaccinated
  let t1 : Totals := { t with V := t.V + vres.2 }
  let res := (List.finRange m.N).foldl (agentStep m o day p.states p.quarantined c b)
      (p.states, p.quarantined, t1)
  ({ states := res.1, vaccinated := vres.1, quarantined := res.2.1 }, res.2.2)

/-- Initial state array before shuffling (lines 249-253): first `init_exposed`
entries EXPOSED, next `init_infected` entries INFECTIOUS, rest SUSCEPTIBLE. -/
def baseStates (m : EpidemicModel) : Fin m.N → HState := fun i =>
  if (i : Nat) < m.init_exposed then EXPOSED
  else if (i : Nat) < m.init_exposed + m.init_infected then INFECTIOUS
  else SUSCEPTIBLE

/-- Population at the start of `sim` (lines 249-256): shuffled initial states,
all overlays zero. -/
def initPop (m : EpidemicModel) (o : Oracle m.N) : Pop m.N :=
  { states := fun i => baseStates m (o.shufflePerm i)
    vaccinated := fun _ => false
    quarantined := fun _ => false }

/-- Day-0 history entry (lines 224-232), computed from the constructor
parameters before any transition. -/
def initRecord (m : EpidemicModel) : HistoryRecord :=
  { day := 0
    S := m.N - m.init_exposed - m.init_infected
    E := m.init_exposed
    I := m.init_infected
    R := 0
    Q := 0
    V := 0
    infected := m.init_exposed + m.init_infected }

/-- Initial `self.totals` (lines 234-246). -/
def initTotals (m : EpidemicModel) : Totals :=
  { S := m.N - m.init_exposed - m.init_infected
    E := m.init_exposed
    I := m.init_infected
    R := 0
    V := 0
    Q := 0
    max_infected := m.init_infected
    max_exposed := m.init_exposed
    max_quarantined := 0
    max_vaccinated := 0
    infected := 0 }

/-- Population and running totals after `d` completed days of the loop
(the pre-update state of day `d`). -/
def simStateAt (m : EpidemicModel) (o : Oracle m.N) : Nat → Pop m.N × Totals
  | 0 => (initPop m o, initTotals m)
  | d + 1 =>
      let st := simStateAt m o d
      dayStep m o d st.1 st.2

/-- History entry recorded after day `day` of the loop (lines 355-371):
per-state counts and overlay counts of the freshly updated arrays. -/
def recordDay (m : EpidemicModel) (day : Nat) (p : Pop m.N) : HistoryRecord :=
  { day := day
    S := countState p.states SUSCEPTIBLE
    E := countState p.states EXPOSED
    I := countState p.states INFECTIOUS
    R := countState p.states RECOVERED
    Q := countFlag p.quarantined
    V := countFlag p.vaccinated
    infected := countState p.states INFECTIOUS + countState p.states EXPOSED }

/-- Row `d` of `history_df`: the day-0 entry comes from the initial formulas,
every later entry from counting the post-update arrays of day `d - 1`. -/
def historyAt (m : EpidemicModel) (o : Oracle m.N) (d : Nat) : HistoryRecord :=
  if d = 0 then initRecord m else recordDay m d (simStateAt m o d).1

/-- `np.max` over a history column. -/
def natMax (l : List Nat) : Nat := l.foldr max 0

/-- `EpidemicModel.sim` (lines 217-384): the full day loop, producing the
`history_df` rows and the final totals with the `max_*` fields overwritten by
the column maxima (lines 378-381). -/
def sim (m : EpidemicModel) (o : Oracle m.N) : List HistoryRecord × Totals :=
  let hist := (List.range (m.days + 1)).map (historyAt m o)
  let t := (simStateAt m o m.days).2
  (hist,
    { t with
      max_infected := natMax (hist.map (fun r => r.infected))
      max_exposed := natMax (hist.map (fun r => r.E))
      max_quarantined := natMax (hist.map (fun r => r.Q))
      max_vaccinated := natMax (hist.map (fun r => r.V)) })

/-- Each agent is in exactly one health state, so the four per-state counts of
any index list add up to its length. -/
lemma countP_state_partition {N : Nat} (s : Fin N → HState) (l : List (Fin N)) :
    l.countP (fun i => decide (s i = SUSCEPTIBLE)) + l.countP (fun i => decide (s i = EXPOSED)) +
      l.countP (fun i => decide (s i = INFECTIOUS)) +
      l.countP (fun i => decide (s i = RECOVERED)) = l.length := by
  induction l with
  | nil => simp
  | cons a l ih =>
      simp only [List.countP_cons, List.length_cons]
      cases h : s a <;> simp [h] <;> omega

/-- The four compartment counts always partition the population. -/
lemma countState_partition {N : Nat} (s : Fin N → HState) :
    countState s SUSCEPTIBLE + countState s EXPOSED + countState s INFECTIOUS +
      countState s RECOVERED = N := by
  have h := countP_state_partition s (List.finRange N)
  simpa [countState] using h

/-- Counting a predicate splits along any second Boolean test. -/
lemma countP_split_by {α : Type} (l : List α) (p q : α → Bool) :
    l.countP p = l.countP (fun a => p a && q a) + l.countP (fun a => p a && !q a) := by
  induction l with
  | nil => simp
  | cons a l ih =>
      simp only [List.countP_cons]
      cases hp : p a <;> cases hq : q a <;> simp [hp, hq] <;> omega

/-- Pointwise preservation of one health state gives count monotonicity. -/
lemma countState_mono {N : Nat} (s1 s2 : Fin N → HState) (x : HState)
    (h : ∀ i, s1 i = x → s2 i = x) : countState s1 x ≤ countState s2 x :=
  List.countP_mono_left (fun i _ hi => decide_eq_true (h i (of_decide_eq_true hi)))

/-- Pointwise preservation of an overlay flag gives count monotonicity. -/
lemma countFlag_mono {N : Nat} (v1 v2 : Fin N → Bool)
    (h : ∀ i, v1 i = true → v2 i = true) : countFlag v1 ≤ countFlag v2 :=
  List.countP_mono_left (fun i _ hi => h i hi)

/-- The net effect of iteration `i` of the per-agent loop on agent `i`'s own
entries of `new_states` and `new_quarantined`, as a function of the pre-day
snapshot and of the entry values before the iteration. -/
def agentResult (m : EpidemicModel) (o : Oracle m.N) (day : Nat)
    (snapS : Fin m.N → HState) (snapQ : Fin m.N → Bool) (c : Nat) (b : ℚ)
    (i : Fin m.N) (oldS : HState) (oldQ : Bool) : HState × Bool :=
  if snapS i = SUSCEPTIBLE then
    if susceptibleBecomesExposed b snapS snapQ ((o.contacts day i).take c) (o.infDraw day i) then
      (EXPOSED, oldQ)
    else (oldS, oldQ)
  else if snapS i = EXPOSED then
    if o.sigDraw day i < m.sigma then (INFECTIOUS, oldQ) else (oldS, oldQ)
  else if snapS i = INFECTIOUS then
    if o.recDraw day i < m.gamma then (RECOVERED, false)
    else if m.quarantine_enabled && quarantineTriggerMet m day snapS &&
            decide (o.qDraw day i < m.quarantine_prob) then (oldS, true)
    else (oldS, oldQ)
  else (oldS, oldQ)

lemma agentStep_self (m : EpidemicModel) (o : Oracle m.N) (day : Nat)
    (snapS : Fin m.N → HState) (snapQ : Fin m.N → Bool) (c : Nat) (b : ℚ)
    (acc : (Fin m.N → HState) × (Fin m.N → Bool) × Totals) (i : Fin m.N) :
    ((agentStep m o day snapS snapQ c b acc i).1 i,
      (agentStep m o day snapS snapQ c b acc i).2.1 i) =
    agentResult m o day snapS snapQ c b i (acc.1 i) (acc.2.1 i) := by
  unfold agentStep agentResult
  split_ifs <;> simp [Function.update_same]

lemma agentStep_other (m : EpidemicModel) (o : Oracle m.N) (day : Nat)
    (snapS : Fin m.N → HState) (snapQ : Fin m.N → Bool) (c : Nat) (b : ℚ)
    (acc : (Fin m.N → HState) × (Fin m.N → Bool) × Totals) (i j : Fin m.N) (hj : j ≠ i) :
    (agentStep m o day snapS snapQ c b acc i).1 j = acc.1 j ∧
    (agentStep m o day snapS snapQ c b acc i).2.1 j = acc.2.1 j := by
  unfold agentStep
  split_ifs <;> simp [Function.update_noteq hj]

lemma agentStep_totals_S (m : EpidemicModel) (o : Oracle m.N) (day : Nat)
    (snapS : Fin m.N → HState) (snapQ : Fin m.N → Bool) (c : Nat) (b : ℚ)
    (acc : (Fin m.N → HState) × (Fin m.N → Bool) × Totals) (i : Fin m.N) :
    (agentStep m o day snapS snapQ c b acc i).2.2.S = acc.2.2.S := by
  unfold agentStep
  split_ifs <;> rfl

/-- Per-index characterization of the whole agent loop: folding over a
duplicate-free index list touches each index at most once, at its own
iteration, so agent `i`'s final entries are `agentResult` of its entries in
the starting accumulator. -/
lemma foldl_agentStep_spec (m : EpidemicModel) (o : Oracle m.N) (day : Nat)
    (snapS : Fin m.N → HState) (snapQ : Fin m.N → Bool) (c : Nat) (b : ℚ) :
    ∀ (L : List (Fin m.N)), L.Nodup →
      ∀ (acc : (Fin m.N → HState) × (Fin m.N → Bool) × Totals) (i : Fin m.N),
      ((L.foldl (agentStep m o day snapS snapQ c b) acc).1 i,
        (L.foldl (agentStep m o day snapS snapQ c b) acc).2.1 i) =
      if i ∈ L then agentResult m o day snapS snapQ c b i (acc.1 i) (acc.2.1 i)
      else (acc.1 i, acc.2.1 i) := by
  intro L
  induction L with
  | nil => intro _ acc i; simp
  | cons a L ih =>
      intro hnd acc i
      have haL : a ∉ L := (List.nodup_cons.mp hnd).1
      have hndL : L.Nodup := (List.nodup_cons.mp hnd).2
      rw [List.foldl_cons]
      rcases eq_or_ne i a with rfl | hne
      · rw [ih hndL _ i, if_neg haL, if_pos (List.mem_cons_self i L)]
        exact agentStep_self m o day snapS snapQ c b acc i
      · have hother := agentStep_other m o day snapS snapQ c b acc a i hne
        rw [ih hndL _ i, hother.1, hother.2]
        by_cases hiL : i ∈ L
        · rw [if_pos hiL, if_pos (List.mem_cons_of_mem a hiL)]
        · rw [if_neg hiL, if_neg (by simp [hne, hiL])]

lemma foldl_agentStep_S (m : EpidemicModel) (o : Oracle m.N) (day : Nat)
    (snapS : Fin m.N → HState) (snapQ : Fin m.N → Bool) (c : Nat) (b : ℚ) :
    ∀ (L : List (Fin m.N)) (acc : (Fin m.N → HState) × (Fin m.N → Bool) × Totals),
      (L.foldl (agentStep m o day snapS snapQ c b) acc).2.2.S = acc.2.2.S := by
  intro L
  induction L with
  | nil => intro acc; rfl
  | cons a L ih =>
      intro acc
      rw [List.foldl_cons, ih]
      exact agentStep_totals_S m o day snapS snapQ c b acc a

lemma dayStep_pair (m : EpidemicModel) (o : Oracle m.N) (day : Nat)
    (p : Pop m.N) (t : Totals) (i : Fin m.N) :
    ((dayStep m o day p t).1.states i, (dayStep m o day p t).1.quarantined i) =
    agentResult m o day p.states p.quarantined (currentContacts m day p.states)
      (currentBeta m day p.states) i (p.states i) (p.quarantined i) := by
  have h := foldl_agentStep_spec m o day p.states p.quarantined
      (currentContacts m day p.states) (currentBeta m day p.states)
      (List.finRange m.N) (List.nodup_finRange m.N)
      (p.states, p.quarantined,
        { t with V := t.V + (vaccinationStep m o day p.vaccinated).2 }) i
  rw [if_pos (List.mem_finRange i)] at h
  exact h

lemma dayStep_states_at (m : EpidemicModel) (o : Oracle m.N) (day : Nat)
    (p : Pop m.N) (t : Totals) (i : Fin m.N) :
    (dayStep m o day p t).1.states i =
    (agentResult m o day p.states p.quarantined (currentContacts m day p.states)
      (currentBeta m day p.states) i (p.states i) (p.quarantined i)).1 :=
  congrArg Prod.fst (dayStep_pair m o day p t i)

lemma dayStep_quarantined_at (m : EpidemicModel) (o : Oracle m.N) (day : Nat)
    (p : Pop m.N) (t : Totals) (i : Fin m.N) :
    (dayStep m o day p t).1.quarantined i =
    (agentResult m o day p.states p.quarantined (currentContacts m day p.states)
      (currentBeta m day p.states) i (p.states i) (p.quarantined i)).2 :=
  congrArg Prod.snd (dayStep_pair m o day p t i)

lemma dayStep_vaccinated (m : EpidemicModel) (o : Oracle m.N) (day : Nat)
    (p : Pop m.N) (t : Totals) :
    (dayStep m o day p t).1.vaccinated = (vaccinationStep m o day p.vaccinated).1 := rfl

lemma dayStep_totals_S (m : EpidemicModel) (o : Oracle m.N) (day : Nat)
    (p : Pop m.N) (t : Totals) : (dayStep m o day p t).2.S = t.S := by
  have h := foldl_agentStep_S m o day p.states p.quarantined
      (currentContacts m day p.states) (currentBeta m day p.states)
      (List.finRange m.N)
      (p.states, p.quarantined,
        { t with V := t.V + (vaccinationStep m o day p.vaccinated).2 })
  exact h

lemma agentResult_recovered (m : EpidemicModel) (o : Oracle m.N) (day : Nat)
    (snapS : Fin m.N → HState) (snapQ : Fin m.N → Bool) (c : Nat) (b : ℚ)
    (i : Fin m.N) (oldS : HState) (oldQ : Bool) (h : snapS i = RECOVERED) :
    agentResult m o day snapS snapQ c b i oldS oldQ = (oldS, oldQ) := by
  unfold agentResult
  simp [h]

/-- A recovered agent is never written by the loop, so it stays recovered. -/
lemma dayStep_recovered_mono (m : EpidemicModel) (o : Oracle m.N) (day : Nat)
    (p : Pop m.N) (t : Totals) (i : Fin m.N) (h : p.states i = RECOVERED) :
    (dayStep m o day p t).1.states i = RECOVERED := by
  rw [dayStep_states_at,
    agentResult_recovered m o day p.states p.quarantined _ _ i _ _ h]
  exact h

/-- The vaccination module only ever sets the vaccinated flag. -/
lemma vaccinationStep_mono (m : EpidemicModel) (o : Oracle m.N) (day : Nat)
    (v : Fin m.N → Bool) (i : Fin m.N) (h : v i = true) :
    (vaccinationStep m o day v).1 i = true := by
  simp only [vaccinationStep]
  split_ifs <;> simp [h]

lemma dayStep_vaccinated_mono (m : EpidemicModel) (o : Oracle m.N) (day : Nat)
    (p : Pop m.N) (t : Totals) (i : Fin m.N) (h : p.vaccinated i = true) :
    (dayStep m o day p t).1.vaccinated i = true := by
  rw [dayStep_vaccinated]
  exact vaccinationStep_mono m o day p.vaccinated i h

lemma sim_hist_length (m : EpidemicModel) (o : Oracle m.N) :
    (sim m o).1.length = m.days + 1 := by
  show ((List.range (m.days + 1)).map (historyAt m o)).length = m.days + 1
  simp

lemma sim_hist_getD (m : EpidemicModel) (o : Oracle m.N) (d : Nat) (hd : d < m.days + 1) :
    (sim m o).1.getD d default = historyAt m o d := by
  show ((List.range (m.days + 1)).map (historyAt m o)).getD d default = historyAt m o d
  simp [List.getD_eq_getElem?_getD, List.getElem?_range hd]

lemma simStateAt_succ (m : EpidemicModel) (o : Oracle m.N) (d : Nat) :
    simStateAt m o (d + 1) =
      dayStep m o d (simStateAt m o d).1 (simStateAt m o d).2 := rfl

/-- Number of sampled contacts that are infectious and not quarantined: the
`k` of the specification's compound transmission formula. -/
def effInfectiousContacts {N : Nat} (s : Fin N → HState) (q : Fin N → Bool)
    (cs : List (Fin N)) : Nat :=
  cs.countP (fun j => decide (s j = INFECTIOUS) && !q j)

/-- Under the quarantined-implies-infectious invariant, the source's exponent
`#infectious contacts - #quarantined contacts` equals the count of infectious
unquarantined contacts, and the transmission test is the threshold test of
`1 - (1-p)^k`; with no effective infectious contact the agent is never
exposed. -/
lemma susceptibleBecomesExposed_spec {N : Nat} (p : ℚ) (s : Fin N → HState)
    (q : Fin N → Bool) (cs : List (Fin N)) (draw : ℚ)
    (hinv : ∀ j, q j = true → s j = INFECTIOUS) (hdraw : 0 ≤ draw) :
    (0 < effInfectiousContacts s q cs →
      (susceptibleBecomesExposed p s q cs draw = true ↔
        draw < 1 - (1 - p) ^ effInfectiousContacts s q cs)) ∧
    (effInfectiousContacts s q cs = 0 →
      susceptibleBecomesExposed p s q cs draw = false) := by
  have hqcount : cs.countP (fun j => q j) =
      cs.countP (fun j => decide (s j = INFECTIOUS) && q j) := by
    refine List.countP_congr (fun j _ => ?_)
    cases hqj : q j
    · simp
    · simp [hinv j hqj]
  have hISum : cs.countP (fun j => decide (s j = INFECTIOUS)) =
      cs.countP (fun j => q j) + effInfectiousContacts s q cs := by
    rw [hqcount]
    exact countP_split_by cs (fun j => decide (s j = INFECTIOUS)) (fun j => q j)
  constructor
  · intro hkpos
    have hinfpos : 0 < cs.countP (fun j => decide (s j = INFECTIOUS)) := by omega
    have hexp : (cs.countP (fun j => decide (s j = INFECTIOUS)) : ℤ) -
        (cs.countP (fun j => q j) : ℤ) = (effInfectiousContacts s q cs : ℤ) := by
      rw [hISum]
      push_cast
      ring
    simp only [susceptibleBecomesExposed]
    rw [if_pos hinfpos, hexp, zpow_natCast]
    exact decide_eq_true_iff
  · intro hk0
    by_cases hip : 0 < cs.countP (fun j => decide (s j = INFECTIOUS))
    · have hq0 : (cs.countP (fun j => decide (s j = INFECTIOUS)) : ℤ) -
          (cs.countP (fun j => q j) : ℤ) = 0 := by
        rw [hISum, hk0]
        push_cast
        ring
      simp only [susceptibleBecomesExposed]
      rw [if_pos hip, hq0, zpow_zero, sub_self]
      exact decide_eq_false (not_lt.mpr hdraw)
    · simp only [susceptibleBecomesExposed]
      rw [if_neg hip]

/-- C1: for every run and every recorded day (day 0 through day D), the
recorded compartment counts satisfy S + E + I + R = N. -/
theorem conservation (m : EpidemicModel) (o : Oracle m.N)
    (hinit : m.init_exposed + m.init_infected ≤ m.N) (d : Nat) (hd : d ≤ m.days) :
    ((sim m o).1.getD d default).S + ((sim m o).1.getD d default).E +
      ((sim m o).1.getD d default).I + ((sim m o).1.getD d default).R = m.N := by
  rw [sim_hist_getD m o d (by omega)]
  unfold historyAt
  by_cases h0 : d = 0
  · rw [if_pos h0]
    simp only [initRecord]
    omega
  · rw [if_neg h0]
    simp only [recordDay]
    exact countState_partition (simStateAt m o d).1.states

lemma simStateAt_totals_S (m : EpidemicModel) (o : Oracle m.N) (d : Nat) :
    (simStateAt m o d).2.S = m.N - m.init_exposed - m.init_infected := by
  induction d with
  | zero => rfl
  | succ d ih =>
      rw [simStateAt_succ, dayStep_totals_S]
      exact ih

/-- C5 amended: the `S` field of the final totals is the initial susceptible
count `N - init_exposed - init_infected`, set when the run is reinitialised
and never updated afterwards (it is not the last day's susceptible count). -/
theorem totalsSusceptibleInitial (m : EpidemicModel) (o : Oracle m.N) :
    (sim m o).2.S = m.N - m.init_exposed - m.init_infected := by
  have h : (sim m o).2.S = (simStateAt m o m.days).2.S := rfl
  rw [h]
  exact simStateAt_totals_S m o m.days

/-- C8: between consecutive recorded days the Recovered count and the
Vaccinated count never decrease. -/
theorem terminalMonotone (m : EpidemicModel) (o : Oracle m.N) (d : Nat) (hd : d < m.days) :
    ((sim m o).1.getD d default).R ≤ ((sim m o).1.getD (d + 1) default).R ∧
    ((sim m o).1.getD d default).V ≤ ((sim m o).1.getD (d + 1) default).V := by
  rw [sim_hist_getD m o d (by omega), sim_hist_getD m o (d + 1) (by omega)]
  unfold historyAt
  cases d with
  | zero =>
      rw [if_pos rfl, if_neg Nat.one_ne_zero]
      constructor
      · simp [initRecord]
      · simp [initRecord]
  | succ k =>
      rw [if_neg (Nat.succ_ne_zero k), if_neg (Nat.succ_ne_zero (k + 1))]
      rw [simStateAt_succ m o (k + 1)]
      constructor
      · simp only [recordDay]
        exact countState_mono _ _ RECOVERED
          (fun i hi => dayStep_recovered_mono m o (k + 1) _ _ i hi)
      · simp only [recordDay]
        exact countFlag_mono _ _
          (fun i hi => dayStep_vaccinated_mono m o (k + 1) _ _ i hi)

/-- A day step preserves the invariant that only infectious agents carry the
quarantine flag: the flag is only set on a non-recovering infectious agent,
and is cleared on recovery. -/
lemma dayStep_quar_inf (m : EpidemicModel) (o : Oracle m.N) (day : Nat)
    (p : Pop m.N) (t : Totals)
    (hinv : ∀ j, p.quarantined j = true → p.states j = INFECTIOUS) (i : Fin m.N)
    (hq : (dayStep m o day p t).1.quarantined i = true) :
    (dayStep m o day p t).1.states i = INFECTIOUS := by
  rw [dayStep_quarantined_at] at hq
  rw [dayStep_states_at]
  revert hq
  unfold agentResult
  split_ifs <;> intro hq
  all_goals first
    | rfl
    | exact hinv i hq
    | simp_all

/-- C10: after setup and after every simulated day, every quarantined agent is
in the Infectious health state. -/
theorem quarantinedImpliesInfectious (m : EpidemicModel) (o : Oracle m.N) (d : Nat)
    (i : Fin m.N) (hq : (simStateAt m o d).1.quarantined i = true) :
    (simStateAt m o d).1.states i = INFECTIOUS := by
  induction d generalizing i with
  | zero => simp [simStateAt, initPop] at hq
  | succ d ih =>
      rw [simStateAt_succ] at hq ⊢
      exact dayStep_quar_inf m o d _ _ (fun j hj => ih j hj) i hq

/-- C2: a susceptible agent with `k` sampled contacts that are infectious and
not quarantined becomes Exposed exactly when its uniform draw falls below
`1 - (1 - p)^k` (with `p` the day's masking-adjusted transmission
probability), and stays Susceptible when `k = 0`; quarantined infectious
contacts do not count towards `k`. -/
theorem transmissionRule (m : EpidemicModel) (o : Oracle m.N) (day : Nat)
    (p : Pop m.N) (t : Totals) (i : Fin m.N)
    (hi : p.states i = SUSCEPTIBLE)
    (hinv : ∀ j, p.quarantined j = true → p.states j = INFECTIOUS)
    (hdraw : 0 ≤ o.infDraw day i) :
    (0 < effInfectiousContacts p.states p.quarantined
        ((o.contacts day i).take (currentContacts m day p.states)) →
      ((dayStep m o day p t).1.states i = EXPOSED ↔
        o.infDraw day i < 1 - (1 - currentBeta m day p.states) ^
          effInfectiousContacts p.states p.quarantined
            ((o.contacts day i).take (currentContacts m day p.states)))) ∧
    (effInfectiousContacts p.states p.quarantined
        ((o.contacts day i).take (currentContacts m day p.states)) = 0 →
      (dayStep m o day p t).1.states i = SUSCEPTIBLE) := by
  have hspec := susceptibleBecomesExposed_spec (currentBeta m day p.states) p.states
      p.quarantined ((o.contacts day i).take (currentContacts m day p.states))
      (o.infDraw day i) hinv hdraw
  rw [dayStep_states_at]
  unfold agentResult
  rw [if_pos hi]
  have hres : ((if susceptibleBecomesExposed (currentBeta m day p.states) p.states
        p.quarantined ((o.contacts day i).take (currentContacts m day p.states))
        (o.infDraw day i) then (EXPOSED, p.quarantined i)
      else (p.states i, p.quarantined i)).1 = EXPOSED) ↔
      susceptibleBecomesExposed (currentBeta m day p.states) p.states
        p.quarantined ((o.contacts day i).take (currentContacts m day p.states))
        (o.infDraw day i) = true := by
    cases hcond : susceptibleBecomesExposed (currentBeta m day p.states) p.states
        p.quarantined ((o.contacts day i).take (currentContacts m day p.states))
        (o.infDraw day i) <;> simp [hcond, hi]
  constructor
  · intro hk
    rw [hres]
    exact hspec.1 hk
  · intro hk0
    rw [hspec.2 hk0]
    simp [hi]

/-- C7: an infectious agent may first recover with probability gamma, becoming
Recovered with its quarantine flag cleared; only if it does not recover and
quarantine is enabled with its trigger met for the day is it quarantined with
probability quarantine_prob, its health state staying Infectious; in every
other case its quarantine flag is unchanged. -/
theorem infectiousTransition (m : EpidemicModel) (o : Oracle m.N) (day : Nat)
    (p : Pop m.N) (t : Totals) (i : Fin m.N) (hi : p.states i = INFECTIOUS) :
    (o.recDraw day i < m.gamma →
      (dayStep m o day p t).1.states i = RECOVERED ∧
      (dayStep m o day p t).1.quarantined i = false) ∧
    (¬o.recDraw day i < m.gamma →
      (dayStep m o day p t).1.states i = INFECTIOUS) ∧
    (¬o.recDraw day i < m.gamma →
      (m.quarantine_enabled && quarantineTriggerMet m day p.states) = true →
      o.qDraw day i < m.quarantine_prob →
      (dayStep m o day p t).1.quarantined i = true) ∧
    (¬o.recDraw day i < m.gamma →
      (m.quarantine_enabled && quarantineTriggerMet m day p.states) = true →
      ¬o.qDraw day i < m.quarantine_prob →
      (dayStep m o day p t).1.quarantined i = p.quarantined i) ∧
    (¬o.recDraw day i < m.gamma →
      (m.quarantine_enabled && quarantineTriggerMet m day p.states) = false →
      (dayStep m o day p t).1.quarantined i = p.quarantined i) := by
  have hnotS : ¬p.states i = SUSCEPTIBLE := by simp [hi]
  have hnotE : ¬p.states i = EXPOSED := by simp [hi]
  refine ⟨fun hrec => ⟨?_, ?_⟩, fun hrec => ?_, fun hrec hqa hqd => ?_,
    fun hrec hqa hqd => ?_, fun hrec hqa => ?_⟩
  · rw [dayStep_states_at]
    unfold agentResult
    rw [if_neg hnotS, if_neg hnotE, if_pos hi, if_pos hrec]
  · rw [dayStep_quarantined_at]
    unfold agentResult
    rw [if_neg hnotS, if_neg hnotE, if_pos hi, if_pos hrec]
  · rw [dayStep_states_at]
    unfold agentResult
    rw [if_neg hnotS, if_neg hnotE, if_pos hi, if_neg hrec]
    split_ifs <;> exact hi
  · rw [dayStep_quarantined_at]
    unfold agentResult
    rw [if_neg hnotS, if_neg hnotE, if_pos hi, if_neg hrec,
      if_pos (show (m.quarantine_enabled && quarantineTriggerMet m day p.states &&
        decide (o.qDraw day i < m.quarantine_prob)) = true by simp [hqa, hqd])]
  · rw [dayStep_quarantined_at]
    unfold agentResult
    rw [if_neg hnotS, if_neg hnotE, if_pos hi, if_neg hrec,
      if_neg (show ¬(m.quarantine_enabled && quarantineTriggerMet m day p.states &&
        decide (o.qDraw day i < m.quarantine_prob)) = true by simp [hqa, hqd])]
  · rw [dayStep_quarantined_at]
    unfold agentResult
    rw [if_neg hnotS, if_neg hnotE, if_pos hi, if_neg hrec,
      if_neg (show ¬(m.quarantine_enabled && quarantineTriggerMet m day p.states &&
        decide (o.qDraw day i < m.quarantine_prob)) = true by simp [hqa])]

/-- C3 amended: an intervention whose trigger is a fixed day stays Active on
every later day once triggered, but a threshold-triggered intervention is
re-evaluated every day against the current pre-update infectious count: it is
Active exactly on the days whose count meets the threshold, so it deactivates
when the count falls back below the threshold. -/
theorem triggerPersistence (m : EpidemicModel) (d d' : Nat)
    (s : Fin m.N → HState) (s' : Fin m.N → HState) (hdd : d ≤ d') :
    (m.distancing_enabled_threshold = false →
      distancingActive m d s = true → distancingActive m d' s' = true) ∧
    (m.mask_enabled_threshold = false →
      maskingActive m d s = true → maskingActive m d' s' = true) ∧
    (m.quarantine_enabled_threshold = false →
      quarantineTriggerMet m d s = true → quarantineTriggerMet m d' s' = true) ∧
    (m.distancing_enabled_day = false →
      (distancingActive m d s = true ↔
        m.distancing_enabled = true ∧ m.distancing_enabled_threshold = true ∧
          m.distancing_threshold.getD 0 ≤ countInfectious s)) ∧
    (m.mask_enabled_day = false →
      (maskingActive m d s = true ↔
        m.masking_enabled = true ∧ m.mask_enabled_threshold = true ∧
          m.mask_threshold.getD 0 ≤ countInfectious s)) ∧
    (m.quarantine_enabled_day = false →
      (quarantineTriggerMet m d s = true ↔
        m.quarantine_enabled_threshold = true ∧
          m.quarantine_threshold.getD 0 ≤ countInfectious s)) := by
  unfold distancingActive maskingActive quarantineTriggerMet
  refine ⟨fun h1 => ?_, fun h2 => ?_, fun h3 => ?_, fun h4 => ?_, fun h5 => ?_,
    fun h6 => ?_⟩
  · simp only [h1, Bool.false_and, Bool.or_false, Bool.and_eq_true,
      decide_eq_true_eq]
    exact fun h => ⟨h.1, h.2.1, le_trans h.2.2 hdd⟩
  · simp only [h2, Bool.false_and, Bool.or_false, Bool.and_eq_true,
      decide_eq_true_eq]
    exact fun h => ⟨h.1, h.2.1, le_trans h.2.2 hdd⟩
  · simp only [h3, Bool.false_and, Bool.or_false, Bool.and_eq_true,
      decide_eq_true_eq]
    exact fun h => ⟨h.1, le_trans h.2 hdd⟩
  · simp [h4, and_assoc]
  · simp [h5, and_assoc]
  · simp [h6]

/-- C9: `sim` produces exactly D + 1 history rows whose day-0 row is the
initial record computed from the parameters before any transition; under the
Scenario A parameters (N = 1000, 5 initial infectious, 0 exposed, 0 days) the
sole record is (0, 995, 0, 5, 0, 0, 0, 5). -/
theorem runShape :
    (∀ (m : EpidemicModel) (o : Oracle m.N),
      (sim m o).1.length = m.days + 1 ∧ (sim m o).1.getD 0 default = initRecord m) ∧
    (∀ o : Oracle 1000,
      (sim (EpidemicModel.init 1000 5 0 0 (1/5) (1/10) (1/10) 5) o).1 =
        [{ day := 0, S := 995, E := 0, I := 5, R := 0, Q := 0, V := 0,
           infected := 5 }]) := by
  constructor
  · intro m o
    refine ⟨sim_hist_length m o, ?_⟩
    rw [sim_hist_getD m o 0 (by omega)]
    unfold historyAt
    rw [if_pos rfl]
  · intro o
    show (List.range (0 + 1)).map
        (historyAt (EpidemicModel.init 1000 5 0 0 (1/5) (1/10) (1/10) 5) o) = _
    rw [show List.range 1 = [0] from rfl]
    simp [historyAt, initRecord, EpidemicModel.init]

/-- C6 amended: a configuration call supplying both a day-trigger and a
threshold-trigger raises the mutual-exclusion error exactly when both values
are truthy (non-zero); a supplied value of 0 is falsy, so the call succeeds
and configures the other trigger instead. -/
theorem bothTruthyTriggersError (m : EpidemicModel) (qp me : ℚ) (rc : Nat)
    (day th : Option Nat) (hday : optTruthy day = true) (hth : optTruthy th = true)
    (hq : 0 ≤ qp ∧ qp ≤ 1) (hm : 0 ≤ me ∧ me ≤ 1)
    (hr : 0 < rc ∧ rc < m.act_rate) :
    apply_quarantine m qp day th =
      Except.error "Both trigger_day and trigger_infectious cannot be set at the same time." ∧
    apply_masking m me day th =
      Except.error "Cannot set both mask_day and mask_threshold at the same time." ∧
    apply_distancing m rc day th =
      Except.error "Cannot set both distancing_day and distancing_threshold at the same time." := by
  refine ⟨?_, ?_, ?_⟩
  · unfold apply_quarantine
    rw [if_neg (not_not_intro hq)]
    simp [hday, hth]
  · unfold apply_masking
    rw [if_neg (not_not_intro hm)]
    simp [hday, hth]
  · unfold apply_distancing
    rw [if_neg (not_not_intro hr)]
    simp [hday, hth]

attribute [local semireducible] Rat.mul Rat.inv Rat.add Rat.sub

/-- Fixed randomness for a two-agent run: the infectious agent always recovers
(draw 0), the susceptible agent is never infected (beta is 0 in `mC3`). -/
def oC3 : Oracle 2 :=
  { shufflePerm := Equiv.refl _
    contacts := fun _ _ => [0, 1]
    infDraw := fun _ _ => 1/2
    sigDraw := fun _ _ => 1/2
    recDraw := fun _ _ => 0
    qDraw := fun _ _ => 1/2
    binom := fun _ _ _ => 0
    vacChoice := fun _ _ _ => [] }

/-- Two agents, one initially infectious, gamma = 1, two days, distancing
configured with threshold trigger 1. -/
def mC3 : EpidemicModel :=
  { EpidemicModel.init 2 1 0 2 0 0 1 2 with
      distancing_enabled := true
      distancing_enabled_threshold := true
      distancing_threshold := some 1
      reduced_contacts := some 1 }

/-- C3 counterexample: the threshold-triggered distancing intervention is
active on day 0 of this run (1 infectious ≥ threshold 1) but inactive on
day 1 of the same run, after the sole infectious agent recovered — the
trigger does not latch. -/
theorem thresholdTriggerDeactivates :
    distancingActive mC3 0 (simStateAt mC3 oC3 0).1.states = true ∧
    1 < mC3.days ∧
    distancingActive mC3 1 (simStateAt mC3 oC3 1).1.states = false := by decide

/-- Day-triggered configuration of all three interventions, for the witness of
the amended C3 theorem. -/
def mW3 : EpidemicModel :=
  { EpidemicModel.init 1 1 0 1 0 0 1 2 with
      distancing_enabled := true
      distancing_enabled_day := true
      distancing_start := some 0
      reduced_contacts := some 1
      masking_enabled := true
      mask_enabled_day := true
      mask_start := some 0
      quarantine_enabled := true
      quarantine_enabled_day := true
      quarantine_start := some 0 }

/-- Witness for the amended C3 theorem: a day-triggered intervention active on
day 0 is still active on day 1 whatever the new state is. -/
theorem triggerPersistence_witness :
    distancingActive mW3 1 (fun _ => RECOVERED) = true ∧
    maskingActive mW3 1 (fun _ => RECOVERED) = true ∧
    quarantineTriggerMet mW3 1 (fun _ => RECOVERED) = true := by
  have h := triggerPersistence mW3 0 1 (fun _ => INFECTIOUS) (fun _ => RECOVERED)
    (by decide)
  exact ⟨h.1 (by decide) (by decide), h.2.1 (by decide) (by decide),
    h.2.2.1 (by decide) (by decide)⟩

/-- Base model for the configuration-call claims. -/
def mBase6 : EpidemicModel := EpidemicModel.init 5 1 0 1 0 0 0 3

/-- C6 counterexample: supplying BOTH a day value (0) and a threshold value
(5) to apply_quarantine does not raise — Python truthiness treats day 0 as
absent — and the call silently configures the threshold trigger. -/
theorem bothTriggersZeroNoError :
    apply_quarantine mBase6 (1/2) (some 0) (some 5) =
      Except.ok { mBase6 with
        quarantine_threshold := some 5
        quarantine_prob := 1/2
        quarantine_enabled_threshold := true
        quarantine_enabled := true } := by rfl

/-- Witness for the amended C6 theorem: with two non-zero trigger values every
configuration call raises its mutual-exclusion error. -/
theorem bothTruthyTriggersError_witness :
    apply_quarantine mBase6 (1/2) (some 2) (some 5) =
      Except.error "Both trigger_day and trigger_infectious cannot be set at the same time." ∧
    apply_masking mBase6 (1/2) (some 2) (some 5) =
      Except.error "Cannot set both mask_day and mask_threshold at the same time." ∧
    apply_distancing mBase6 1 (some 2) (some 5) =
      Except.error "Cannot set both distancing_day and distancing_threshold at the same time." :=
  bothTruthyTriggersError mBase6 (1/2) (1/2) 1 (some 2) (some 5) (by decide) (by decide)
    ⟨by decide, by decide⟩ ⟨by decide, by decide⟩ ⟨by decide, by decide⟩

/-- Randomness that would vaccinate every unvaccinated agent if the
vaccination module ever ran. -/
def oD4 : Oracle 3 :=
  { shufflePerm := Equiv.refl _
    contacts := fun _ _ => []
    infDraw := fun _ _ => 1/2
    sigDraw := fun _ _ => 1/2
    recDraw := fun _ _ => 1/2
    qDraw := fun _ _ => 1/2
    binom := fun _ n _ => n
    vacChoice := fun _ l _ => l }

/-- Three agents, one infectious, one simulated day, no interventions. -/
def mD4 : EpidemicModel := EpidemicModel.init 3 1 0 1 0 0 0 1

/-- C4 (code bug): configuring vaccination with rate 1.0 and day 0 is silently
ignored — the Python guard `if vaccination_day:` is false for 0 — so the call
returns the model unchanged with vaccination disabled, and the recorded V
count after day 1 is 0, not N = 3, even though the randomness would vaccinate
every candidate if the module ran. -/
theorem vaccinationDayZeroIgnored :
    apply_vaccination mD4 1 (some 0) none = Except.ok mD4 ∧
    mD4.vaccination_enabled = false ∧
    ((sim mD4 oD4).1.getD 1 default).V = 0 ∧
    mD4.N = 3 :=
  ⟨rfl, rfl, by decide, rfl⟩

/-- Randomness for the C5 run: the susceptible agent's draw 0 guarantees
infection (beta = 1 in `mC5`), the infectious agent never recovers. -/
def oC5 : Oracle 2 :=
  { shufflePerm := Equiv.refl _
    contacts := fun _ _ => [0, 1]
    infDraw := fun _ _ => 0
    sigDraw := fun _ _ => 1/2
    recDraw := fun _ _ => 1/2
    qDraw := fun _ _ => 1/2
    binom := fun _ _ _ => 0
    vacChoice := fun _ _ _ => [] }

/-- Two agents, one infectious, beta = 1, gamma = 0, one day. -/
def mC5 : EpidemicModel := EpidemicModel.init 2 1 0 1 1 (1/2) 0 1

/-- C5 counterexample: in this run the susceptible agent is infected on day 1,
so the totals' S field keeps the initial susceptible count 1 while the last
recorded day has S = 0 — the TotalsRecord does not report the final count. -/
theorem totalsSusceptibleMismatch :
    (sim mC5 oC5).2.S = 1 ∧ ((sim mC5 oC5).1.getD mC5.days default).S = 0 ∧
    (sim mC5 oC5).2.S ≠ ((sim mC5 oC5).1.getD mC5.days default).S := by decide

/-- Witness for the conservation theorem at a concrete run and day. -/
theorem conservation_witness :
    ((sim mC5 oC5).1.getD 0 default).S + ((sim mC5 oC5).1.getD 0 default).E +
      ((sim mC5 oC5).1.getD 0 default).I + ((sim mC5 oC5).1.getD 0 default).R = mC5.N :=
  conservation mC5 oC5 (by decide) 0 (by decide)

/-- Witness for the terminal-state monotonicity theorem at a concrete run. -/
theorem terminalMonotone_witness :
    ((sim mC5 oC5).1.getD 0 default).R ≤ ((sim mC5 oC5).1.getD 1 default).R ∧
    ((sim mC5 oC5).1.getD 0 default).V ≤ ((sim mC5 oC5).1.getD 1 default).V :=
  terminalMonotone mC5 oC5 0 (by decide)

/-- Randomness for the C2 witness: the susceptible agent samples the
infectious agent and draws 1/4. -/
def oW2 : Oracle 2 :=
  { shufflePerm := Equiv.refl _
    contacts := fun _ _ => [0]
    infDraw := fun _ _ => 1/4
    sigDraw := fun _ _ => 1/2
    recDraw := fun _ _ => 1/2
    qDraw := fun _ _ => 1/2
    binom := fun _ _ _ => 0
    vacChoice := fun _ _ _ => [] }

/-- Two agents, one infectious, beta = 1/2, one contact per day. -/
def mW2 : EpidemicModel := EpidemicModel.init 2 1 0 1 (1/2) 0 0 1

/-- Witness for the transmission rule: with k = 1 effective infectious contact
and draw 1/4 < 1 - (1 - 1/2)^1, the susceptible agent becomes Exposed. -/
theorem transmissionRule_witness :
    (dayStep mW2 oW2 0 (initPop mW2 oW2) (initTotals mW2)).1.states (1 : Fin 2) =
      EXPOSED := by
  have h := transmissionRule mW2 oW2 0 (initPop mW2 oW2) (initTotals mW2) (1 : Fin 2)
    (by decide) (by decide) (by decide)
  exact (h.1 (by decide)).mpr (by decide)

/-- Randomness for the C7 and C10 witnesses: the infectious agent never
recovers and its quarantine draw 0 falls below probability 1. -/
def oW7 : Oracle 1 :=
  { shufflePerm := Equiv.refl _
    contacts := fun _ _ => []
    infDraw := fun _ _ => 1/2
    sigDraw := fun _ _ => 1/2
    recDraw := fun _ _ => 1/2
    qDraw := fun _ _ => 0
    binom := fun _ _ _ => 0
    vacChoice := fun _ _ _ => [] }

/-- One infectious agent, gamma = 0, quarantine active from day 0 with
probability 1. -/
def mW7 : EpidemicModel :=
  { EpidemicModel.init 1 1 0 1 0 0 0 1 with
      quarantine_enabled := true
      quarantine_enabled_day := true
      quarantine_start := some 0
      quarantine_prob := 1 }

/-- Witness for the infectious transition theorem: the non-recovering agent is
quarantined and stays Infectious. -/
theorem infectiousTransition_witness :
    (dayStep mW7 oW7 0 (initPop mW7 oW7) (initTotals mW7)).1.states (0 : Fin 1) =
      INFECTIOUS ∧
    (dayStep mW7 oW7 0 (initPop mW7 oW7) (initTotals mW7)).1.quarantined (0 : Fin 1) =
      true := by
  have h := infectiousTransition mW7 oW7 0 (initPop mW7 oW7) (initTotals mW7) (0 : Fin 1)
    (by decide)
  exact ⟨h.2.1 (by decide), h.2.2.1 (by decide) (by decide) (by decide)⟩

/-- Witness for the quarantined-implies-infectious invariant: after day 1 of
this run the agent is quarantined, and the theorem yields that it is
Infectious. -/
theorem quarantinedImpliesInfectious_witness :
    (simStateAt mW7 oW7 1).1.quarantined (0 : Fin 1) = true ∧
    (simStateAt mW7 oW7 1).1.states (0 : Fin 1) = INFECTIOUS :=
  ⟨by decide, quarantinedImpliesInfectious mW7 oW7 1 (0 : Fin 1) (by decide)⟩

end Epi
